import Mathlib

/-!
Verification of the TimeTracker dashboard logic.  The file
src/components/atoms/DashboardTable.tsx of the repository contains two
revisions of the component (referred to below as revision 1, lines 1-368, and
revision 2, lines 369 onward); an earlier copy of revision 1 sits in
src/unnamed/part_002.  The duration calculators, formatters, CSV escaping and
export, aggregate totals, and the delete handler are embedded as pure Lean
functions; browser-only collaborators (date rendering, the DOM download, the
remote store, the confirm dialog) are modelled as explicit parameters or
recorded outcomes.
-/

namespace TimeTracker

/-- A dynamically typed JS field value as it reaches the CSV escape helpers:
a string, null, or undefined. -/
inductive JsValue where
  | nullv
  | undef
  | str (s : String)
deriving DecidableEq

/-- The observable outcome of JS date handling on a timestamp string: absent
is the empty string (falsy), unparsable a non-empty string for which the
expression (new Date(s)).getTime() is NaN, and parsed ms a non-empty string
whose getTime() is the integer epoch-millisecond value ms. -/
inductive Timestamp where
  | absent
  | unparsable
  | parsed (ms : Int)
deriving DecidableEq

/-- JS falsiness of the timestamp string (the !startTime test): only the empty
string is falsy here. -/
def Timestamp.isEmpty : Timestamp → Bool
  | .absent => true
  | _ => false

/-- The value of (new Date(t)).getTime(), with none standing for NaN (also for
the empty string, whose date is invalid). -/
def Timestamp.getTime : Timestamp → Option Int
  | .parsed ms => some ms
  | _ => none

/-- Revision 1 calculateHoursWorked (DashboardTable.tsx lines 36-52): falsy or
unparsable inputs give [0,0]; a negative millisecond difference gives [0,0];
otherwise [Math.floor(diffMs/1000/60/60), Math.floor((diffMs/1000/60) % 60)].
JS real division followed by Math.floor on a non-negative integer agrees with
iterated integer floor division, which is how the expressions are embedded. -/
def calculateHoursWorked (startTime endTime : Timestamp) : Nat × Nat :=
  if startTime.isEmpty || endTime.isEmpty then (0, 0)
  else
    match startTime.getTime, endTime.getTime with
    | some s, some e =>
      let diffMs := e - s
      if diffMs < 0 then (0, 0)
      else
        let d := diffMs.toNat
        (d / 1000 / 60 / 60, d / 1000 / 60 % 60)
    | _, _ => (0, 0)

/-- Revision 2 calculateHoursWorked (DashboardTable.tsx lines 398-402).  This
revision has no isNaN guard: when either non-empty timestamp is unparsable,
diffMs is NaN, the diffMs < 0 test is false, and both components of the
result are NaN (modelled as none). -/
def calculateHoursWorkedV2 (startTime endTime : Timestamp) : Option Nat × Option Nat :=
  if startTime.isEmpty || endTime.isEmpty then (some 0, some 0)
  else
    match startTime.getTime, endTime.getTime with
    | some s, some e =>
      let diffMs := e - s
      if diffMs < 0 then (some 0, some 0)
      else
        let d := diffMs.toNat
        (some (d / 3600000), some (d / 60000 % 60))
    | _, _ => (none, none)

/-- Revision 1 formatHoursAndMinutes (lines 54-59). -/
def formatHoursAndMinutes (hours minutes : Nat) : String :=
  if hours = 0 && minutes = 0 then "0h 0m"
  else if hours = 0 then toString minutes ++ "m"
  else if minutes = 0 then toString hours ++ "h"
  else toString hours ++ "h " ++ toString minutes ++ "m"

/-- JS number-to-string restricted to the values that occur here: none is NaN. -/
def numStr : Option Nat → String
  | none => "NaN"
  | some n => toString n

/-- The JS test h > 0 where h may be NaN (NaN > 0 is false). -/
def jsGtZero : Option Nat → Bool
  | none => false
  | some n => 0 < n

/-- Revision 2 formatDuration (lines 404-407) over possibly-NaN inputs: the
string "0m" when both are 0; otherwise the hours part appears, with a trailing
space, only when h > 0, and the minutes part always appears. -/
def formatDurationN (h m : Option Nat) : String :=
  if h = some 0 && m = some 0 then "0m"
  else (if jsGtZero h then numStr h ++ "h " else "") ++ numStr m ++ "m"

/-- Revision 2 formatDuration on ordinary (non-NaN) numbers. -/
def formatDuration (h m : Nat) : String :=
  formatDurationN (some h) (some m)

/-- JS String.prototype.includes for a single character. -/
def containsChar (s : String) (c : Char) : Bool :=
  s.data.contains c

/-- The JS call str.replace(/"/g, quoted pair): every double-quote character
is doubled. -/
def doubleQuotes (s : String) : String :=
  String.mk (s.data.flatMap fun c => if c = '\"' then ['\"', '\"'] else [c])

/-- Revision 1 escapeCsvField (lines 112-121, identically in
src/unnamed/part_002 lines 106-115): null and undefined become the empty
string; a string containing a comma, double quote, LF, or CR is wrapped in
double quotes with embedded quotes doubled; otherwise it is returned as is. -/
def escapeCsvField (field : JsValue) : String :=
  match field with
  | .nullv => ""
  | .undef => ""
  | .str s =>
    if containsChar s ',' || containsChar s '\"' || containsChar s '\n' || containsChar s '\r' then
      "\"" ++ doubleQuotes s ++ "\""
    else s

/-- Revision 2 escape (line 432): String(txt || empty) collapses null,
undefined, and the empty string to the empty string, and the result is always
wrapped in double quotes with embedded quotes doubled. -/
def escape (txt : JsValue) : String :=
  let s := match txt with
    | .str s => s
    | _ => ""
  "\"" ++ doubleQuotes s ++ "\""

/-- One row of the time_logs table as the component sees it (the TimeLog
interface).  The text columns of the store are nullable in practice, so the
text fields are dynamic JsValues. -/
structure TimeLog where
  id : Int
  task_name : JsValue
  start_time : Timestamp
  end_time : Timestamp
  notes : JsValue
deriving DecidableEq

/-- JS Array.prototype.join with the given separator. -/
def joinWith (sep : String) : List String → String
  | [] => ""
  | [a] => a
  | a :: rest => a ++ sep ++ joinWith sep rest

/-- formatDateTime (both revisions): the empty string for an absent timestamp,
otherwise the browser date rendering (toUTCString in revision 1,
toLocaleString in revision 2), which is the external collaborator render. -/
def formatDateTime (render : Timestamp → String) (dt : Timestamp) : String :=
  if dt.isEmpty then "" else render dt

/-- Revision 1 CSV header cells (line 110). -/
def headersV1 : List String := ["Task", "Start Time", "End Time", "Hours Worked", "Notes"]

/-- Revision 2 CSV header cells (line 429). -/
def headersV2 : List String := ["Task", "Start", "End", "Duration", "Notes"]

/-- One data row of the revision 1 CSV export (lines 123-132). -/
def csvRow (render : Timestamp → String) (log : TimeLog) : String :=
  let hm := calculateHoursWorked log.start_time log.end_time
  joinWith ","
    [escapeCsvField log.task_name,
     escapeCsvField (.str (formatDateTime render log.start_time)),
     escapeCsvField (.str (formatDateTime render log.end_time)),
     escapeCsvField (.str (formatHoursAndMinutes hm.1 hm.2)),
     escapeCsvField log.notes]

/-- The revision 1 CSV text (line 134): header row and data rows joined by LF. -/
def csvString (render : Timestamp → String) (logs : List TimeLog) : String :=
  joinWith "\n" (joinWith "," headersV1 :: logs.map (csvRow render))

/-- One data row of the revision 2 CSV export (lines 430-440). -/
def csvRowV2 (render : Timestamp → String) (log : TimeLog) : String :=
  let hm := calculateHoursWorkedV2 log.start_time log.end_time
  joinWith ","
    [escape log.task_name,
     escape (.str (formatDateTime render log.start_time)),
     escape (.str (formatDateTime render log.end_time)),
     escape (.str (formatDurationN hm.1 hm.2)),
     escape log.notes]

/-- The revision 2 CSV text (line 441). -/
def csvStringV2 (render : Timestamp → String) (logs : List TimeLog) : String :=
  joinWith "\n" (joinWith "," headersV2 :: logs.map (csvRowV2 render))

/-- What an export invocation did: the CSV text handed to the download link
(if any), the alert shown (if any), and the entry list as left behind by the
handler. -/
structure ExportOutcome where
  fileWrite : Option String
  alertMsg : Option String
  logsAfter : List TimeLog
deriving DecidableEq

/-- Revision 1 handleExportCSV (lines 104-148): an empty list triggers
alert("No data to export.") and an early return with no file write; otherwise
the CSV text is built from the list (which is only read, never written) and
offered as a download. -/
def handleExportCSV (render : Timestamp → String) (logsToExport : List TimeLog) : ExportOutcome :=
  if logsToExport.length = 0 then
    { fileWrite := none, alertMsg := some "No data to export.", logsAfter := logsToExport }
  else
    { fileWrite := some (csvString render logsToExport), alertMsg := none,
      logsAfter := logsToExport }

/-- Revision 2 handleExportCSV (lines 427-450): an empty list causes a silent
early return (no alert, no write); otherwise the CSV text is built and offered
as a download. -/
def handleExportCSVV2 (render : Timestamp → String) (logs : List TimeLog) : ExportOutcome :=
  if logs.length = 0 then
    { fileWrite := none, alertMsg := none, logsAfter := logs }
  else
    { fileWrite := some (csvStringV2 render logs), alertMsg := none, logsAfter := logs }

/-- The body of the revision 1 totals loop (lines 87-91): add the hours and
minutes of each entry into the running pair. -/
def accHM (a : Nat × Nat) (log : TimeLog) : Nat × Nat :=
  let hm := calculateHoursWorked log.start_time log.end_time
  (a.1 + hm.1, a.2 + hm.2)

/-- Revision 1 aggregate totals (lines 85-98): accumulate hours and minutes,
then carry the excess minutes into hours. -/
def computeTotals (logs : List TimeLog) : Nat × Nat :=
  let acc := logs.foldl accHM (0, 0)
  (acc.1 + acc.2 / 60, acc.2 % 60)

/-- JS addition on numbers that may be NaN: NaN absorbs. -/
def jsAdd : Option Nat → Option Nat → Option Nat
  | some a, some b => some (a + b)
  | _, _ => none

/-- The revision 2 per-entry minute count (h * 60) + m (line 456). -/
def entryMinutes (log : TimeLog) : Option Nat :=
  let hm := calculateHoursWorkedV2 log.start_time log.end_time
  jsAdd (hm.1.map (· * 60)) hm.2

/-- Revision 2 aggregate totals (lines 452-459): accumulate total minutes,
then split into hours and minutes. -/
def computeTotalsV2 (logs : List TimeLog) : Option Nat × Option Nat :=
  let tMin := logs.foldl (fun acc l => jsAdd acc (entryMinutes l)) (some 0)
  (tMin.map (· / 60), tMin.map (· % 60))

/-- The table state the delete handler touches: the entry list and the error
message. -/
structure TableState where
  logs : List TimeLog
  error : String
deriving DecidableEq

/-- Revision 2 handleDelete (lines 461-467): nothing happens without
confirmation; otherwise the entry is removed optimistically (filtering on
l.id !== id) and, if the store delete fails, the snapshot taken before the
removal is restored and an error is set.  confirmed is the confirm-dialog
result and deleteFails the outcome of the store call. -/
def handleDelete (st : TableState) (confirmed : Bool) (id : Int) (deleteFails : Bool) :
    TableState :=
  if !confirmed then st
  else
    let prev := st.logs
    let optimistic := st.logs.filter fun l => l.id != id
    if deleteFails then { logs := prev, error := "Failed to delete" }
    else { logs := optimistic, error := st.error }

/-- The first line of a block of text: everything before the first LF. -/
def firstLine (s : String) : String :=
  String.mk (s.data.takeWhile fun c => c != '\n')

/-- A sample entry: 2h 30m of work. -/
def logA : TimeLog :=
  { id := 1, task_name := .str "alpha", start_time := .parsed 0,
    end_time := .parsed 9000000, notes := .str "first" }

/-- A sample entry: 0h 45m of work. -/
def logB : TimeLog :=
  { id := 2, task_name := .str "beta", start_time := .parsed 86400000,
    end_time := .parsed 89100000, notes := .str "second" }

/-- A sample entry: 0h 0m (end before start), with a null notes field. -/
def logC : TimeLog :=
  { id := 3, task_name := .str "gamma", start_time := .parsed 500000,
    end_time := .parsed 0, notes := .nullv }

theorem accHM_right_comm (z : Nat × Nat) (x y : TimeLog) :
    accHM (accHM z x) y = accHM (accHM z y) x := by
  simp only [accHM, Prod.mk.injEq]
  constructor <;> omega

theorem jsAdd_right_comm (z x y : Option Nat) :
    jsAdd (jsAdd z x) y = jsAdd (jsAdd z y) x := by
  cases z <;> cases x <;> cases y <;> simp [jsAdd, Nat.add_right_comm]

/-- C1: on parsable timestamps, the duration calculators of both revisions
return (0, 0) when the end-minus-start difference is negative, and otherwise
hours = diff / 3600 and minutes = diff / 60 % 60, where diff is the
millisecond difference truncated to whole seconds; seconds are truncated,
never rounded. -/
theorem c1_duration_truncation (s e : Int) :
    (e - s < 0 →
      calculateHoursWorked (.parsed s) (.parsed e) = (0, 0) ∧
      calculateHoursWorkedV2 (.parsed s) (.parsed e) = (some 0, some 0)) ∧
    (0 ≤ e - s →
      calculateHoursWorked (.parsed s) (.parsed e) =
        ((e - s).toNat / 1000 / 3600, (e - s).toNat / 1000 / 60 % 60) ∧
      calculateHoursWorkedV2 (.parsed s) (.parsed e) =
        (some ((e - s).toNat / 1000 / 3600), some ((e - s).toNat / 1000 / 60 % 60))) := by
  have key1 : calculateHoursWorked (.parsed s) (.parsed e) =
      if e - s < 0 then (0, 0)
      else ((e - s).toNat / 1000 / 60 / 60, (e - s).toNat / 1000 / 60 % 60) := rfl
  have key2 : calculateHoursWorkedV2 (.parsed s) (.parsed e) =
      if e - s < 0 then (some 0, some 0)
      else (some ((e - s).toNat / 3600000), some ((e - s).toNat / 60000 % 60)) := rfl
  constructor
  · intro h
    rw [key1, key2, if_pos h, if_pos h]
    exact ⟨rfl, rfl⟩
  · intro h
    have h' : ¬ (e - s < 0) := not_lt.mpr h
    rw [key1, key2, if_neg h', if_neg h']
    refine ⟨Prod.ext ?_ ?_, Prod.ext ?_ ?_⟩ <;> simp only [Option.some.injEq] <;> omega

/-- C1 witness: a 125-second interval truncates to 0 hours, 2 minutes. -/
theorem c1_duration_truncation_witness :
    calculateHoursWorked (.parsed 0) (.parsed 125000) =
      (((125000 : Int) - 0).toNat / 1000 / 3600, ((125000 : Int) - 0).toNat / 1000 / 60 % 60) ∧
    calculateHoursWorkedV2 (.parsed 0) (.parsed 125000) =
      (some (((125000 : Int) - 0).toNat / 1000 / 3600),
       some (((125000 : Int) - 0).toNat / 1000 / 60 % 60)) :=
  (c1_duration_truncation 0 125000).2 (by decide)

/-- C2: the aggregate-totals computations of both revisions give the same
result on any permutation of the entry list. -/
theorem c2_totals_perm_invariant (l₁ l₂ : List TimeLog) (p : l₁.Perm l₂) :
    computeTotals l₁ = computeTotals l₂ ∧ computeTotalsV2 l₁ = computeTotalsV2 l₂ := by
  constructor
  · have h := p.foldl_eq' (fun x _ y _ z => accHM_right_comm z x y) (0, 0)
    simp only [computeTotals, h]
  · have h : List.foldl (fun acc l => jsAdd acc (entryMinutes l)) (some 0) l₁ =
        List.foldl (fun acc l => jsAdd acc (entryMinutes l)) (some 0) l₂ :=
      p.foldl_eq' (fun x _ y _ z => jsAdd_right_comm z (entryMinutes x) (entryMinutes y)) (some 0)
    simp only [computeTotalsV2, h]

/-- C2 witness: swapping the two sample entries leaves both totals unchanged. -/
theorem c2_totals_perm_invariant_witness :
    computeTotals [logA, logB] = computeTotals [logB, logA] ∧
    computeTotalsV2 [logA, logB] = computeTotalsV2 [logB, logA] :=
  c2_totals_perm_invariant [logA, logB] [logB, logA] (List.Perm.swap logB logA [])

/-- C4: with a parsable start and a non-empty unparsable end, the revision 2
calculator (which lacks the isNaN guard of revision 1) yields NaN in both
components instead of the specified (0, 0); revision 1 returns (0, 0) there. -/
theorem c4_unparsable_nan :
    calculateHoursWorkedV2 (.parsed 1704099600000) .unparsable = (none, none) ∧
    calculateHoursWorked (.parsed 1704099600000) .unparsable = (0, 0) :=
  ⟨rfl, rfl⟩

/-- C5 counterexample: the revision 2 exporter, on an empty list, performs no
file write but also raises no user-visible signal (no alert). -/
theorem c5_counterexample :
    handleExportCSVV2 (fun _ => "") [] =
      { fileWrite := none, alertMsg := none, logsAfter := [] } := rfl

/-- C5 (amended): on an empty list neither revision writes a file; revision 1
alerts "No data to export.", while revision 2 returns silently with no
user-visible signal. -/
theorem c5_amended (render : Timestamp → String) :
    handleExportCSV render [] =
      { fileWrite := none, alertMsg := some "No data to export.", logsAfter := [] } ∧
    handleExportCSVV2 render [] =
      { fileWrite := none, alertMsg := none, logsAfter := [] } :=
  ⟨rfl, rfl⟩

/-- C8 counterexample: the revision 2 formatter gives "0m" (not "0h 0m") for
(0, 0) and does not omit the zero minutes unit for (3, 0). -/
theorem c8_counterexample :
    formatDuration 0 0 = "0m" ∧ formatDuration 0 0 ≠ "0h 0m" ∧
    formatDuration 3 0 = "3h 0m" ∧ formatDuration 3 0 ≠ "3h" := by
  refine ⟨rfl, by decide, rfl, by decide⟩

/-- C8 (amended): formatHoursAndMinutes of revision 1 behaves exactly as the
claim states; formatDuration of revision 2 instead returns "0m" when both are
zero and never omits the minutes unit. -/
theorem c8_amended (h m : Nat) :
    (formatHoursAndMinutes h m =
      if h = 0 ∧ m = 0 then "0h 0m"
      else if h = 0 then toString m ++ "m"
      else if m = 0 then toString h ++ "h"
      else toString h ++ "h " ++ toString m ++ "m") ∧
    (formatDuration h m =
      if h = 0 ∧ m = 0 then "0m"
      else if h = 0 then toString m ++ "m"
      else toString h ++ "h " ++ toString m ++ "m") := by
  constructor
  · unfold formatHoursAndMinutes
    by_cases h0 : h = 0 <;> by_cases m0 : m = 0 <;> simp [h0, m0]
  · unfold formatDuration formatDurationN numStr jsGtZero
    by_cases h0 : h = 0 <;> by_cases m0 : m = 0 <;>
      simp [h0, m0, Nat.pos_of_ne_zero]

/-- C9: neither export handler changes the entry list it reads. -/
theorem c9_export_preserves_logs (render : Timestamp → String) (logs : List TimeLog) :
    (handleExportCSV render logs).logsAfter = logs ∧
    (handleExportCSVV2 render logs).logsAfter = logs := by
  unfold handleExportCSV handleExportCSVV2
  constructor <;> split <;> rfl

/-- C10: the revision 1 escape maps null and undefined fields to the empty
string, and a row built from an entry with a null notes field or an undefined
task name equals the row for the same entry with an empty-string field. -/
theorem c10_null_field_empty :
    escapeCsvField JsValue.nullv = "" ∧ escapeCsvField JsValue.undef = "" ∧
    ∀ (render : Timestamp → String) (log : TimeLog),
      csvRow render { log with notes := JsValue.nullv } =
        csvRow render { log with notes := JsValue.str "" } ∧
      csvRow render { log with task_name := JsValue.undef } =
        csvRow render { log with task_name := JsValue.str "" } :=
  ⟨rfl, rfl, fun _ _ => ⟨rfl, rfl⟩⟩

theorem containsChar_iff (s : String) (c : Char) :
    containsChar s c = true ↔ c ∈ s.data := by
  simp [containsChar, List.elem_iff]

/-- C3 counterexample: a field whose only special character is a carriage
return is quoted by the revision 1 escape (the condition of the claim would
leave it unchanged), and the revision 2 escape quotes a field with no special
character at all. -/
theorem c3_counterexample :
    escapeCsvField (JsValue.str "a\rb") = "\"a\rb\"" ∧
    escapeCsvField (JsValue.str "a\rb") ≠ "a\rb" ∧
    escape (JsValue.str "abc") = "\"abc\"" ∧
    escape (JsValue.str "abc") ≠ "abc" := by
  refine ⟨rfl, by decide, rfl, by decide⟩

/-- C3 (amended): the revision 1 escapeCsvField quotes-and-doubles exactly
when the field contains a comma, a double quote, a line feed, or a carriage
return, and otherwise returns the field unchanged; the revision 2 escape wraps
every field in double quotes (doubling embedded quotes) unconditionally. -/
theorem c3_amended (s : String) :
    ((∃ c ∈ s.data, c = ',' ∨ c = '\"' ∨ c = '\n' ∨ c = '\r') →
      escapeCsvField (.str s) = "\"" ++ doubleQuotes s ++ "\"") ∧
    ((∀ c ∈ s.data, c ≠ ',' ∧ c ≠ '\"' ∧ c ≠ '\n' ∧ c ≠ '\r') →
      escapeCsvField (.str s) = s) ∧
    escape (.str s) = "\"" ++ doubleQuotes s ++ "\"" := by
  have hkey : escapeCsvField (.str s) =
      if containsChar s ',' || containsChar s '\"' || containsChar s '\n' || containsChar s '\r' then
        "\"" ++ doubleQuotes s ++ "\""
      else s := rfl
  refine ⟨fun hex => ?_, fun hall => ?_, rfl⟩
  · obtain ⟨c, hc, hor⟩ := hex
    rw [hkey, if_pos]
    rcases hor with rfl | rfl | rfl | rfl <;>
      simp [(containsChar_iff _ _).mpr hc]
  · rw [hkey, if_neg]
    intro hcond
    rcases Bool.or_eq_true_iff.mp hcond with h3 | h4
    · rcases Bool.or_eq_true_iff.mp h3 with h1 | h2
      · rcases Bool.or_eq_true_iff.mp h1 with ha | hb
        · exact (hall _ ((containsChar_iff _ _).mp ha)).1 rfl
        · exact (hall _ ((containsChar_iff _ _).mp hb)).2.1 rfl
      · exact (hall _ ((containsChar_iff _ _).mp h2)).2.2.1 rfl
    · exact (hall _ ((containsChar_iff _ _).mp h4)).2.2.2 rfl

/-- C3 witness: a field with a comma is quoted; a plain field passes through. -/
theorem c3_amended_witness :
    escapeCsvField (JsValue.str "a,b") = "\"" ++ doubleQuotes "a,b" ++ "\"" ∧
    escapeCsvField (JsValue.str "xyz") = "xyz" :=
  ⟨(c3_amended "a,b").1 ⟨',', by decide, by decide⟩,
   (c3_amended "xyz").2.1 (by decide)⟩

theorem filter_ne_id_eq_erase (B : TimeLog) :
    ∀ (l : List TimeLog), B ∈ l → l.Pairwise (fun a b => a.id ≠ b.id) →
      l.filter (fun x => x.id != B.id) = l.erase B := by
  intro l
  induction l with
  | nil => intro h; cases h
  | cons a t ih =>
    intro hB hp
    rw [List.pairwise_cons] at hp
    obtain ⟨ha, hpt⟩ := hp
    rcases List.mem_cons.mp hB with rfl | hBt
    · rw [List.filter_cons, List.erase_cons_head]
      simp only [bne_self_eq_false, Bool.false_eq_true, if_false]
      exact List.filter_eq_self.mpr fun x hx => bne_iff_ne.mpr (Ne.symm (ha x hx))
    · have hne : a.id ≠ B.id := ha B hBt
      have hfa : (a.id != B.id) = true := bne_iff_ne.mpr hne
      have hab : ¬ ((a == B) = true) := by
        simp only [beq_iff_eq]
        exact fun hEq => hne (congrArg TimeLog.id hEq)
      rw [List.filter_cons, if_pos hfa, List.erase_cons_tail hab, ih hBt hpt]

/-- C6: with the user confirmed, a failed store delete leaves the final entry
list exactly as it was before the delete (the optimistic removal is rolled
back) and sets the error message, while a successful delete leaves the
original list with the chosen entry removed. -/
theorem c6_delete_rollback (st : TableState) (B : TimeLog)
    (hB : B ∈ st.logs) (huniq : st.logs.Pairwise fun a b => a.id ≠ b.id) :
    ((handleDelete st true B.id true).logs = st.logs ∧
      (handleDelete st true B.id true).error = "Failed to delete") ∧
    (handleDelete st true B.id false).logs = st.logs.erase B := by
  refine ⟨⟨rfl, rfl⟩, ?_⟩
  show st.logs.filter (fun l => l.id != B.id) = st.logs.erase B
  exact filter_ne_id_eq_erase B st.logs hB huniq

/-- C6 witness: deleting the middle sample entry; the failed branch restores
the three-entry list, the successful branch removes exactly that entry. -/
theorem c6_delete_rollback_witness :
    ((handleDelete ⟨[logA, logB, logC], ""⟩ true logB.id true).logs = [logA, logB, logC] ∧
      (handleDelete ⟨[logA, logB, logC], ""⟩ true logB.id true).error = "Failed to delete") ∧
    (handleDelete ⟨[logA, logB, logC], ""⟩ true logB.id false).logs =
      [logA, logB, logC].erase logB :=
  c6_delete_rollback ⟨[logA, logB, logC], ""⟩ logB (by decide) (by decide)

theorem takeWhile_append_newline (l r : List Char) (h : ∀ c ∈ l, c ≠ '\n') :
    (l ++ '\n' :: r).takeWhile (fun c => c != '\n') = l := by
  induction l with
  | nil => simp [List.takeWhile_cons]
  | cons c t ih =>
    have hc : (c != '\n') = true := bne_iff_ne.mpr (h c (.head _))
    simp only [List.cons_append, List.takeWhile_cons, hc, if_true]
    rw [ih fun x hx => h x (.tail _ hx)]

theorem firstLine_append (a r : String) (ha : ∀ c ∈ a.data, c ≠ '\n') :
    firstLine (a ++ "\n" ++ r) = a := by
  unfold firstLine
  have hdata : (a ++ "\n" ++ r).data = a.data ++ '\n' :: r.data := by
    simp [String.data_append]
  rw [hdata, takeWhile_append_newline _ _ ha]

/-- C7 counterexample: the first line of the revision 1 export of one entry is
not the claimed literal (its fourth column is named "Hours Worked"). -/
theorem c7_counterexample :
    firstLine (csvString (fun _ => "D") [logA]) ≠
      "Task,Start Time,End Time,Duration,Notes" := by decide

/-- C7 (amended): for a non-empty entry list, the first line of the revision 1
export is "Task,Start Time,End Time,Hours Worked,Notes", and the first line of
the revision 2 export is "Task,Start,End,Duration,Notes". -/
theorem c7_amended (render : Timestamp → String) (logs : List TimeLog) (hne : logs ≠ []) :
    firstLine (csvString render logs) = "Task,Start Time,End Time,Hours Worked,Notes" ∧
    firstLine (csvStringV2 render logs) = "Task,Start,End,Duration,Notes" := by
  obtain ⟨l0, lt, rfl⟩ := List.exists_cons_of_ne_nil hne
  constructor
  · have h1 : csvString render (l0 :: lt) =
        "Task,Start Time,End Time,Hours Worked,Notes" ++ "\n" ++
          joinWith "\n" (csvRow render l0 :: lt.map (csvRow render)) := rfl
    rw [h1, firstLine_append _ _ (by decide)]
  · have h2 : csvStringV2 render (l0 :: lt) =
        "Task,Start,End,Duration,Notes" ++ "\n" ++
          joinWith "\n" (csvRowV2 render l0 :: lt.map (csvRowV2 render)) := rfl
    rw [h2, firstLine_append _ _ (by decide)]

/-- C7 witness: the two header lines on a concrete one-entry list. -/
theorem c7_amended_witness :
    firstLine (csvString (fun _ => "D") [logA]) =
      "Task,Start Time,End Time,Hours Worked,Notes" ∧
    firstLine (csvStringV2 (fun _ => "D") [logA]) = "Task,Start,End,Duration,Notes" :=
  c7_amended (fun _ => "D") [logA] (by simp)

end TimeTracker
